import Mathlib

/-
  Verification development for the KITT repository (doctotypetech-dotcom/KITT).

  The repository has two Python source files:
    * kitt_installer.py — a Tk GUI that runs a fixed 9-step installation
      sequence (create ~/.kitt, download Modelfile and main.py, install
      Ollama, pull a model, create the kitt-ai profile, install PyInstaller,
      compile, copy the executable), with idempotency checks and a progress
      bar;
    * main.py — a Tk chat client that streams the output of
      `ollama run kitt-ai <message>` character by character into the
      conversation view.

  Below, each relevant function of the source is shallowly embedded as a
  pure Lean function over an explicit host/process-behaviour state.  GUI
  rendering (fonts, geometry, scrollbars) and log-line decoration
  (timestamps, emoji) are not modelled; the control flow, the processes
  spawned, the network fetches, the filesystem effects, the progress
  updates and the user-visible messages are.
-/

namespace KITT

abbrev Bytes := List Nat

/-- Operating system as returned by `platform.system()` (kitt_installer.py
line 29): the code branches on the exact strings "Darwin" and "Linux" and
rejects everything else (lines 215-229). -/
inductive OSName where
  | darwin
  | linux
  | other (s : String)
deriving DecidableEq, Repr

/-- A file on the host: its byte contents plus its permission mode
(download_main_py chmods a fresh download to 0o755 = 493, line 198). -/
structure FileEntry where
  bytes : Bytes
  mode : Nat
deriving DecidableEq, Repr

/-- The slice of the host filesystem the installer reads and writes:
the ~/.kitt directory, ~/.kitt/Modelfile and ~/.kitt/main.py. -/
structure FS where
  kittDirExists : Bool
  modelfile : Option FileEntry
  mainPy : Option FileEntry
deriving DecidableEq, Repr

/-- External commands the installer can spawn via subprocess
(kitt_installer.py).  `curlFetchInstallScript` is
`curl -fsSL https://ollama.ai/install.sh` (lines 218-227; note the source
does not pipe the fetched script into a shell). -/
inductive Cmd where
  | whichOllama
  | curlFetchInstallScript
  | ollamaList
  | ollamaPull
  | ollamaCreateKitt
  | pipInstallBreak
  | pipInstallPlain
  | pyinstallerBuild
deriving DecidableEq, Repr

/-- Names of the nine installation steps, in plan order
(run_installation, lines 108-154). -/
inductive StepName where
  | createDir
  | dlModelfile
  | dlMainPy
  | installOllama
  | dlModel
  | createAI
  | installPyinst
  | compileStep
  | copyExe
deriving DecidableEq, Repr

/-- Log events the claims refer to: the "already present / already
installed" messages emitted when an idempotency check passes, and the
lines streamed live from a subprocess (download_model lines 257-262,
create_kitt_ai lines 289-294).  Other log lines (timestamps, banners)
are presentation only and not modelled. -/
inductive ILog where
  | skipMsg (s : StepName)
  | streamLine (s : String)
deriving DecidableEq, Repr

/-- Fixed behaviour of the host environment and of every external command
for one installation run: exit codes, remote file contents, command
output.  `whichOllamaExit` is the exit code of `which ollama`;
`ollamaListStdout` is the stdout of `ollama list`; `pullLines` /
`createLines` are the stdout lines streamed by `ollama pull` /
`ollama create`; `createStderrLines` is what `ollama create` wrote to
stderr. -/
structure Host where
  fs : FS
  system : OSName
  remoteModelfile : Bytes
  remoteMainPy : Bytes
  modelfileFetchOk : Bool
  mainPyFetchOk : Bool
  whichOllamaExit : Nat
  curlExit : Nat
  ollamaListStdout : String
  pullLines : List String
  pullExit : Nat
  createLines : List String
  createStderrLines : List String
  createExit : Nat
  pipBreakExit : Nat
  pipPlainExit : Nat
  compileExit : Nat
  distHasExecutable : Bool
deriving DecidableEq, Repr

/-- Result of running one installation step: the filesystem afterwards,
the external processes spawned (idempotency probes included), the URLs
fetched over the network, the modelled log events, and whether the step
completed without raising (`ok = false` embeds a raised exception). -/
structure StepOut where
  fs : FS
  spawned : List Cmd
  fetched : List String
  logs : List ILog
  ok : Bool
deriving DecidableEq, Repr

def modelfile_url : String :=
  "https://raw.githubusercontent.com/doctotypetech-dotcom/KITT/refs/heads/main/Modelfile"

def main_py_url : String :=
  "https://raw.githubusercontent.com/doctotypetech-dotcom/KITT/refs/heads/main/main.py"

/-- Does the character list start with the pattern?  (Used to embed
Python's substring test `"llama3.2:3b" in result.stdout`.) -/
def charsStartWith : List Char → List Char → Bool
  | _, [] => true
  | [], _ :: _ => false
  | a :: as, b :: bs => a == b && charsStartWith as bs

/-- Does the pattern occur as a contiguous substring of the haystack? -/
def charsContain (pat : List Char) : List Char → Bool
  | [] => pat.isEmpty
  | c :: rest => charsStartWith (c :: rest) pat || charsContain pat rest

/-- Python's `pat in hay` substring test on strings. -/
def strContains (hay pat : String) : Bool :=
  charsContain pat.toList hay.toList

/-- Embeds KITTInstaller.create_kitt_directory (lines 166-172): if ~/.kitt
exists, log that it does and change nothing; otherwise mkdir it.  No
subprocess is involved either way. -/
def create_kitt_directory (fs : FS) : StepOut :=
  if fs.kittDirExists then
    { fs := fs, spawned := [], fetched := [], logs := [.skipMsg .createDir], ok := true }
  else
    { fs := { fs with kittDirExists := true }, spawned := [], fetched := [],
      logs := [], ok := true }

/-- Embeds KITTInstaller.download_modelfile (lines 174-184): if
~/.kitt/Modelfile exists, log and return; otherwise urlretrieve it from
`modelfile_url` (a failing retrieval raises, re-raised at line 184). -/
def download_modelfile (h : Host) (fs : FS) : StepOut :=
  if fs.modelfile.isSome then
    { fs := fs, spawned := [], fetched := [], logs := [.skipMsg .dlModelfile], ok := true }
  else if h.modelfileFetchOk then
    { fs := { fs with modelfile := some ⟨h.remoteModelfile, 420⟩ }, spawned := [],
      fetched := [modelfile_url], logs := [], ok := true }
  else
    { fs := fs, spawned := [], fetched := [modelfile_url], logs := [], ok := false }

/-- Embeds KITTInstaller.download_main_py (lines 186-201): if
~/.kitt/main.py exists, log and return; otherwise urlretrieve it from
`main_py_url` and chmod it to 0o755. -/
def download_main_py (h : Host) (fs : FS) : StepOut :=
  if fs.mainPy.isSome then
    { fs := fs, spawned := [], fetched := [], logs := [.skipMsg .dlMainPy], ok := true }
  else if h.mainPyFetchOk then
    { fs := { fs with mainPy := some ⟨h.remoteMainPy, 493⟩ }, spawned := [],
      fetched := [main_py_url], logs := [], ok := true }
  else
    { fs := fs, spawned := [], fetched := [main_py_url], logs := [], ok := false }

/-- Embeds KITTInstaller.install_ollama (lines 203-234): first spawns
`which ollama` as the idempotency probe; exit 0 means already installed
(log, return).  Otherwise, on Darwin or Linux it spawns
`curl -fsSL https://ollama.ai/install.sh` with check=True, so a non-zero
curl exit raises; any other OS raises "Système non supporté". -/
def install_ollama (h : Host) (fs : FS) : StepOut :=
  if h.whichOllamaExit == 0 then
    { fs := fs, spawned := [.whichOllama], fetched := [],
      logs := [.skipMsg .installOllama], ok := true }
  else
    match h.system with
    | .darwin =>
        { fs := fs, spawned := [.whichOllama, .curlFetchInstallScript], fetched := [],
          logs := [], ok := h.curlExit == 0 }
    | .linux =>
        { fs := fs, spawned := [.whichOllama, .curlFetchInstallScript], fetched := [],
          logs := [], ok := h.curlExit == 0 }
    | .other _ =>
        { fs := fs, spawned := [.whichOllama], fetched := [], logs := [], ok := false }

def model_name : String := "llama3.2:3b"

/-- Embeds KITTInstaller.download_model (lines 236-273): spawns
`ollama list` as the idempotency probe and tests `"llama3.2:3b" in
result.stdout` (Python substring).  If present, log and return; otherwise
spawn `ollama pull llama3.2:3b`, stream its stdout lines into the log in
arrival order, wait, and raise if the exit code is non-zero. -/
def download_model (h : Host) (fs : FS) : StepOut :=
  if strContains h.ollamaListStdout model_name then
    { fs := fs, spawned := [.ollamaList], fetched := [],
      logs := [.skipMsg .dlModel], ok := true }
  else
    { fs := fs, spawned := [.ollamaList, .ollamaPull], fetched := [],
      logs := h.pullLines.map .streamLine, ok := h.pullExit == 0 }

/-- Embeds KITTInstaller.create_kitt_ai (lines 275-309): spawns
`ollama create kitt-ai -f Modelfile`, streams its stdout lines, waits; on
non-zero exit it additionally logs the stderr lines and raises. -/
def create_kitt_ai (h : Host) (fs : FS) : StepOut :=
  if h.createExit == 0 then
    { fs := fs, spawned := [.ollamaCreateKitt], fetched := [],
      logs := h.createLines.map .streamLine, ok := true }
  else
    { fs := fs, spawned := [.ollamaCreateKitt], fetched := [],
      logs := h.createLines.map .streamLine ++ h.createStderrLines.map .streamLine,
      ok := false }

/-- Embeds KITTInstaller.install_pyinstaller (lines 311-329): spawns
`pip install pyinstaller --break-system-packages` (no check=True, so a
non-zero exit does not raise); if that returned non-zero it spawns
`pip install pyinstaller` once more and never inspects the second exit
code.  Both branches fall through to logging "PyInstaller installé", so
this step cannot fail the run. -/
def install_pyinstaller (h : Host) (fs : FS) : StepOut :=
  if h.pipBreakExit == 0 then
    { fs := fs, spawned := [.pipInstallBreak], fetched := [], logs := [], ok := true }
  else
    { fs := fs, spawned := [.pipInstallBreak, .pipInstallPlain], fetched := [],
      logs := [], ok := true }

/-- Embeds KITTInstaller.compile_with_pyinstaller (lines 331-353): raises
if ~/.kitt/main.py is missing, otherwise spawns
`pyinstaller --noconsole --onefile main.py` and raises on non-zero exit. -/
def compile_with_pyinstaller (h : Host) (fs : FS) : StepOut :=
  if fs.mainPy.isSome then
    { fs := fs, spawned := [.pyinstallerBuild], fetched := [], logs := [],
      ok := h.compileExit == 0 }
  else
    { fs := fs, spawned := [], fetched := [], logs := [], ok := false }

/-- Embeds KITTInstaller.copy_executable (lines 355-397): raises if
~/.kitt/dist is missing or holds no `main*` executable (both collapsed
into `distHasExecutable`); otherwise copies it to the Desktop and appends
a shell alias to ~/.bashrc (effects outside the modelled FS slice). -/
def copy_executable (h : Host) (fs : FS) : StepOut :=
  if h.distHasExecutable then
    { fs := fs, spawned := [], fetched := [], logs := [], ok := true }
  else
    { fs := fs, spawned := [], fetched := [], logs := [], ok := false }

/-- Trace of a whole installation run: final filesystem, every process
spawned, every URL fetched, the modelled log events, the successive
values passed to update_progress, the steps whose bodies were entered,
and whether the run reached the success dialog. -/
structure RunOut where
  fs : FS
  spawned : List Cmd
  fetched : List String
  logs : List ILog
  progress : List Nat
  executed : List StepName
  success : Bool
deriving Repr

/-- Sequential driver shared by the run: execute each (name, step,
progress-target) in order; after a step returns normally, report its
progress target and continue; the first step that raises aborts the rest
(run_installation's try block, lines 110-161). -/
def runSteps : List (StepName × (FS → StepOut) × Nat) → FS → RunOut
  | [], fs =>
    { fs := fs, spawned := [], fetched := [], logs := [], progress := [],
      executed := [], success := true }
  | (n, f, p) :: rest, fs =>
    let o := f fs
    if o.ok then
      let r := runSteps rest o.fs
      { fs := r.fs, spawned := o.spawned ++ r.spawned,
        fetched := o.fetched ++ r.fetched, logs := o.logs ++ r.logs,
        progress := p :: r.progress, executed := n :: r.executed,
        success := r.success }
    else
      { fs := o.fs, spawned := o.spawned, fetched := o.fetched, logs := o.logs,
        progress := [], executed := [n], success := false }

/-- The fixed nine-step plan of run_installation (lines 108-154), with the
cumulative progress value reported after each step. -/
def installPlan (h : Host) : List (StepName × (FS → StepOut) × Nat) :=
  [(.createDir, create_kitt_directory, 11),
   (.dlModelfile, download_modelfile h, 22),
   (.dlMainPy, download_main_py h, 33),
   (.installOllama, install_ollama h, 44),
   (.dlModel, download_model h, 55),
   (.createAI, create_kitt_ai h, 66),
   (.installPyinst, install_pyinstaller h, 77),
   (.compileStep, compile_with_pyinstaller h, 88),
   (.copyExe, copy_executable h, 100)]

/-- Embeds KITTInstaller.run_installation (lines 108-164): run the plan on
the host's initial filesystem.  Every exception is caught at line 159 and
turned into an error dialog; nothing is re-raised. -/
def run_installation (h : Host) : RunOut :=
  runSteps (installPlan h) h.fs

/-- Cumulative progress targets reported by the plan, in order. -/
def progressTargets : List Nat := [11, 22, 33, 44, 55, 66, 77, 88, 100]

/-- Per-step progress weights: the increments between successive reported
cumulative values, starting from 0. -/
def progressWeights : List Nat :=
  List.zipWith (fun a b => a - b) progressTargets (0 :: progressTargets)

/-- The driver's terminal dialog (lines 156-161): success box on a clean
run, error box otherwise. -/
inductive DriverNotice where
  | successDialog
  | errorDialog
deriving DecidableEq, Repr

/-- Embeds the `__main__` driver (lines 404-406) plus the Tk mainloop:
run_installation catches every exception itself (lines 159-164) and only
shows a dialog, and the script contains no sys.exit call, so the
interpreter's exit status is 0 whatever the run's outcome.  Returns the
run trace, the dialog shown, and the process exit status. -/
def kitt_installer_main (h : Host) : RunOut × DriverNotice × Nat :=
  let r := run_installation h
  (r, if r.success then .successDialog else .errorDialog, 0)

/-
  ===================== Chat client (main.py) =====================
-/

/-- Behaviour of one `ollama run kitt-ai <message>` process for one query
(main.py, query_kitt lines 171-231): the characters its stdout delivers,
whether it eventually closes stdout (if not, `process.stdout.read(1)` at
line 195 blocks forever), whether after stdout closes the process exits
within the 300-second window of `process.wait(timeout=300)` (line 212),
its exit code, and the text sitting in its stderr pipe.  The source never
reads the stderr pipe's content, so `stderrText` is observably inert. -/
structure ProcBehavior where
  stdoutChars : List Char
  stdoutCloses : Bool
  exitsWithinWait : Bool
  exitCode : Nat
  stderrText : String
deriving DecidableEq, Repr

/-- Messages shown through display_message (main.py lines 107-121),
restricted to the ones query_kitt and the button handlers can emit.
`stderrHandleErr` embeds line 220-221: `error_msg = process.stderr if
process.stderr else "Erreur inconnue"` followed by
`display_message(f"Erreur: {error_msg}", "error")` — `process.stderr` is
the TextIOWrapper pipe OBJECT, never read, so the message interpolates
the handle's repr, not the captured stderr text. -/
inductive Msg where
  | timeoutNotice
  | stderrHandleErr
  | unknownErr
  | userEcho (s : String)
  | systemNote (s : String)
deriving DecidableEq, Repr

/-- Python truthiness of `process.stderr` at line 220: a TextIOWrapper has
no truth override and is always truthy, so the "Erreur inconnue" fallback
is unreachable. -/
def stderrPipeTruthy : Bool := true

/-- Observable actions of one query_kitt execution, in program order:
inserting the "KITT:" header (lines 175-179), spawning the process
(lines 182-188), each one-character read (line 195) and its immediate
forwarding into the chat display (lines 202-206), the EOF read that ends
the loop (line 197), the wait call (line 212), killing the process
(line 224), inserting the trailing blank lines (lines 215-217), and any
display_message call. -/
inductive QAct where
  | kittHeader
  | spawnOllamaRun (prompt : String)
  | readChar (c : Char)
  | forward (c : Char)
  | readEOF
  | waitProc
  | killProc
  | insertEndNewlines
  | display (m : Msg)
deriving DecidableEq, Repr

/-- Trace of one query_kitt call: the actions performed, and whether the
function returned (false embeds blocking forever inside
`process.stdout.read(1)` — the finally block never runs). -/
structure QTrace where
  acts : List QAct
  returned : Bool
deriving DecidableEq, Repr

/-- The read/forward loop of query_kitt (lines 191-209): each character is
read and then immediately forwarded to the chat display before the next
read happens. -/
def streamLoop (cs : List Char) : List QAct :=
  cs.flatMap fun c => [QAct.readChar c, QAct.forward c]

/-- Embeds KITTApplication.query_kitt (main.py lines 171-231) against a
process behaviour.  The body consults no concurrency state of any kind.
If the process never closes stdout, the loop blocks forever in read(1)
(the 300-second timeout guards only the wait AFTER end of stream).  If
stdout closes but the process does not exit within the wait window,
TimeoutExpired is caught (line 223): the process is killed and a timeout
error is displayed.  Otherwise the trailing blank lines are inserted and,
only when the exit code is non-zero AND no output was accumulated
(line 219), an error message interpolating the stderr pipe handle is
displayed; a non-zero exit after any output is silently ignored. -/
def query_kitt (prompt : String) (b : ProcBehavior) : QTrace :=
  let pre := QAct.kittHeader :: QAct.spawnOllamaRun prompt :: streamLoop b.stdoutChars
  if !b.stdoutCloses then
    { acts := pre, returned := false }
  else if !b.exitsWithinWait then
    { acts := pre ++ [QAct.readEOF, QAct.waitProc, QAct.killProc,
                      QAct.display Msg.timeoutNotice],
      returned := true }
  else
    let errTail :=
      if b.exitCode != 0 && b.stdoutChars.isEmpty then
        [QAct.display (if stderrPipeTruthy then Msg.stderrHandleErr else Msg.unknownErr)]
      else []
    { acts := pre ++ [QAct.readEOF, QAct.waitProc, QAct.insertEndNewlines] ++ errTail,
      returned := true }

/-- Projection selecting forwarded characters. -/
def fwdProj : QAct → Option Char
  | .forward c => some c
  | _ => none

/-- Projection selecting characters read from stdout. -/
def readProj : QAct → Option Char
  | .readChar c => some c
  | _ => none

/-- Projection selecting displayed messages. -/
def dispProj : QAct → Option Msg
  | .display m => some m
  | _ => none

/-- Is the action a stream-level action (a read or a forward)? -/
def isStreamAct : QAct → Bool
  | .readChar _ => true
  | .forward _ => true
  | _ => false

/-- The characters a trace forwarded into the chat display, in order. -/
def forwards (t : QTrace) : List Char :=
  t.acts.filterMap fwdProj

/-- The characters a trace read from the process's stdout, in order. -/
def readsOf (t : QTrace) : List Char :=
  t.acts.filterMap readProj

/-- The stream-level actions of a trace (reads and forwards only). -/
def streamActs (t : QTrace) : List QAct :=
  t.acts.filter isStreamAct

/-- The messages a trace displayed, in order. -/
def msgsOf (t : QTrace) : List Msg :=
  t.acts.filterMap dispProj

/-- Application-level state of the chat client (main.py):
the input box contents, whether the send button and the input box are
enabled (lines 164-165 and 229-230), whether a query thread is currently
in flight, whether the last spawned ollama-run process is still alive,
how many ollama-run processes have been spawned so far, whether the Tk
mainloop has been told to quit, and the displayed messages. -/
structure KState where
  inputText : String
  sendEnabled : Bool
  inputEnabled : Bool
  queryInFlight : Bool
  procAlive : Bool
  spawnCount : Nat
  appClosed : Bool
  displayed : List Msg
deriving DecidableEq, Repr

/-- Effect of one query_kitt call on the application state.  Nothing in
the body of query_kitt (lines 171-231) reads `queryInFlight` or any other
busy indicator: a process is spawned unconditionally.  When the call
returns, its finally block (lines 228-231) re-enables the send button and
input box, and the process is no longer running (EOF + wait, or killed);
when the call blocks forever, none of that happens. -/
def query_kitt_app (prompt : String) (b : ProcBehavior) (s : KState) : KState :=
  let t := query_kitt prompt b
  if t.returned then
    { s with spawnCount := s.spawnCount + 1,
             displayed := s.displayed ++ msgsOf t,
             procAlive := false,
             sendEnabled := true, inputEnabled := true }
  else
    { s with spawnCount := s.spawnCount + 1,
             displayed := s.displayed ++ msgsOf t,
             procAlive := true }

/-- Python's str.strip(): drop whitespace from both ends (used at main.py
line 153 on the input box contents). -/
def pyStrip (s : String) : String :=
  String.mk
    (((s.toList.dropWhile Char.isWhitespace).reverse.dropWhile
        Char.isWhitespace).reverse)

/-- The state send_message (lines 151-169) produces just before the query
thread body starts: the user's message echoed, the input box cleared, the
send button and the input box disabled, a query in flight and a process
about to run. -/
def send_message_pre (s : KState) : KState :=
  { s with displayed := s.displayed ++ [Msg.userEcho (pyStrip s.inputText)],
           inputText := "",
           sendEnabled := false, inputEnabled := false,
           queryInFlight := true }

/-- Embeds KITTApplication.send_message (lines 151-169) composed with the
query thread it starts: an all-whitespace message only pops a warning box
(no state change modelled); otherwise the pre-state above is set up and
query_kitt runs on it. -/
def send_message (b : ProcBehavior) (s : KState) : KState :=
  if pyStrip s.inputText = "" then s
  else query_kitt_app (pyStrip s.inputText) b (send_message_pre s)

/-- The user-interface actions main.py offers (setup_ui, lines 86-103):
the send button / Ctrl-Return binding, the clear-conversation button, and
the quit button.  There is no other control. -/
inductive UserAction where
  | pressSend
  | pressClear
  | pressQuit
deriving DecidableEq, Repr

/-- Effect of one user action on the application state.  A disabled send
button does not fire its command (Tk), so pressing send while
`sendEnabled = false` does nothing.  clear_chat (lines 233-239, user
confirming) wipes the conversation view and shows a system note; it does
not touch any process.  quit (line 102) ends the Tk mainloop; the child
process, if any, is not killed (subprocesses survive their parent). -/
def applyAction (a : UserAction) (b : ProcBehavior) (s : KState) : KState :=
  match a with
  | .pressSend => if s.sendEnabled then send_message b s else s
  | .pressClear =>
      { s with displayed := [Msg.systemNote "Conversation effacée"] }
  | .pressQuit => { s with appClosed := true }

/-
  ===================== Concrete host states =====================
-/

/-- Filesystem where everything the installer would create is already
present. -/
def fsFull : FS :=
  { kittDirExists := true, modelfile := some ⟨[72], 420⟩, mainPy := some ⟨[35], 493⟩ }

/-- Fresh filesystem: nothing present yet. -/
def fsEmpty : FS :=
  { kittDirExists := false, modelfile := none, mainPy := none }

/-- A host where every idempotency check passes and every spawned command
succeeds. -/
def hostAllOk : Host :=
  { fs := fsFull, system := .linux,
    remoteModelfile := [70], remoteMainPy := [71],
    modelfileFetchOk := true, mainPyFetchOk := true,
    whichOllamaExit := 0, curlExit := 0,
    ollamaListStdout := "NAME            ID    SIZE\nllama3.2:3b     a80c  2.0 GB\n",
    pullLines := [], pullExit := 0,
    createLines := ["success"], createStderrLines := [], createExit := 0,
    pipBreakExit := 0, pipPlainExit := 0, compileExit := 0,
    distHasExecutable := true }

/-- Same host, but both pip invocations of the PyInstaller step fail with
exit code 1. -/
def hostPipFail : Host :=
  { hostAllOk with pipBreakExit := 1, pipPlainExit := 1 }

/-- A host where the Modelfile is absent and its download fails, so the
run aborts at step 2. -/
def hostFail : Host :=
  { hostAllOk with fs := fsEmpty, modelfileFetchOk := false }

/-- A host where everything is fine except that the `ollama create`
command exits 1: a CommandFailed at step 6, covered by no tolerable-exit
policy (the source declares none). -/
def hostCreateFail : Host :=
  { hostAllOk with createExit := 1 }

/-- The five plan entries before the kitt-ai creation step on
`hostCreateFail`. -/
def preCreateAI : List (StepName × (FS → StepOut) × Nat) :=
  [(.createDir, create_kitt_directory, 11),
   (.dlModelfile, download_modelfile hostCreateFail, 22),
   (.dlMainPy, download_main_py hostCreateFail, 33),
   (.installOllama, install_ollama hostCreateFail, 44),
   (.dlModel, download_model hostCreateFail, 55)]

/-- The three plan entries after the kitt-ai creation step on
`hostCreateFail`. -/
def postCreateAI : List (StepName × (FS → StepOut) × Nat) :=
  [(.installPyinst, install_pyinstaller hostCreateFail, 77),
   (.compileStep, compile_with_pyinstaller hostCreateFail, 88),
   (.copyExe, copy_executable hostCreateFail, 100)]

/-
  ===================== Shared run-level lemmas =====================
-/

theorem runSteps_ok_all :
    ∀ (l : List (StepName × (FS → StepOut) × Nat)) (fs : FS),
      (runSteps l fs).success = true →
      (runSteps l fs).executed = l.map (fun x => x.1) ∧
      (runSteps l fs).progress = l.map (fun x => x.2.2) := by
  intro l
  induction l with
  | nil => intro fs _; simp [runSteps]
  | cons s rest ih =>
    intro fs hsucc
    obtain ⟨n, f, p⟩ := s
    by_cases hok : (f fs).ok = true
    · simp only [runSteps, hok, if_true] at hsucc ⊢
      obtain ⟨h1, h2⟩ := ih (f fs).fs hsucc
      simp [h1, h2]
    · simp [runSteps, hok] at hsucc

theorem runSteps_fail_stops :
    ∀ (l : List (StepName × (FS → StepOut) × Nat)) (fs : FS),
      (runSteps l fs).success = false →
      ∃ pre n f p post, l = pre ++ (n, f, p) :: post ∧
        (runSteps l fs).executed = pre.map (fun x => x.1) ++ [n] := by
  intro l
  induction l with
  | nil => intro fs h; simp [runSteps] at h
  | cons s rest ih =>
    intro fs hfail
    obtain ⟨n, f, p⟩ := s
    by_cases hok : (f fs).ok = true
    · simp only [runSteps, hok, if_true] at hfail ⊢
      obtain ⟨pre, n', f', p', post, hl, hex⟩ := ih (f fs).fs hfail
      exact ⟨(n, f, p) :: pre, n', f', p', post, by simp [hl], by simp [hex]⟩
    · refine ⟨[], n, f, p, rest, by simp, ?_⟩
      simp [runSteps, hok]

theorem runSteps_progress_take :
    ∀ (l : List (StepName × (FS → StepOut) × Nat)) (fs : FS),
      ∃ k, (runSteps l fs).progress = (l.map (fun x => x.2.2)).take k := by
  intro l
  induction l with
  | nil => intro fs; exact ⟨0, by simp [runSteps]⟩
  | cons s rest ih =>
    intro fs
    obtain ⟨n, f, p⟩ := s
    by_cases hok : (f fs).ok = true
    · obtain ⟨k, hk⟩ := ih (f fs).fs
      exact ⟨k + 1, by simp [runSteps, hok, hk]⟩
    · exact ⟨0, by simp [runSteps, hok]⟩

theorem runSteps_abort :
    ∀ (pre : List (StepName × (FS → StepOut) × Nat)) (n : StepName)
      (f : FS → StepOut) (p : Nat)
      (post : List (StepName × (FS → StepOut) × Nat)) (fs : FS),
      (runSteps pre fs).success = true →
      (f (runSteps pre fs).fs).ok = false →
      (runSteps (pre ++ (n, f, p) :: post) fs).success = false ∧
      (runSteps (pre ++ (n, f, p) :: post) fs).executed =
        pre.map (fun x => x.1) ++ [n] ∧
      (runSteps (pre ++ (n, f, p) :: post) fs).progress =
        (runSteps pre fs).progress := by
  intro pre
  induction pre with
  | nil =>
    intro n f p post fs _ hfail
    have hfs : (runSteps [] fs).fs = fs := rfl
    rw [hfs] at hfail
    simp [runSteps, hfail]
  | cons s pre' ih =>
    intro n f p post fs hpre hfail
    obtain ⟨m, g, q⟩ := s
    by_cases hok : (g fs).ok = true
    · simp only [runSteps, hok, if_true] at hpre hfail ⊢
      obtain ⟨h1, h2, h3⟩ := ih n f p post (g fs).fs hpre hfail
      simp [h1, h2, h3]
    · simp [runSteps, hok] at hpre

theorem runSteps_preserve (P : FS → Prop)
    (l : List (StepName × (FS → StepOut) × Nat))
    (hstep : ∀ x ∈ l, ∀ fs, P fs → P (x.2.1 fs).fs ∧ (x.2.1 fs).fetched = []) :
    ∀ fs, P fs →
      P (runSteps l fs).fs ∧ (runSteps l fs).fetched = [] := by
  induction l with
  | nil => intro fs hP; simpa [runSteps] using hP
  | cons s rest ih =>
    intro fs hP
    obtain ⟨n, f, p⟩ := s
    obtain ⟨hPf, hfet⟩ := hstep (n, f, p) (by simp) fs hP
    simp only at hPf hfet
    by_cases hok : (f fs).ok = true
    · obtain ⟨hPr, hfr⟩ := ih (fun x hx => hstep x (by simp [hx]) ) (f fs).fs hPf
      simp [runSteps, hok, hfet, hfr, hPr]
    · simp [runSteps, hok, hfet, hPf]

/-
  ===================== Claim C1 =====================
-/

/-- C1 counterexample: on `hostPipFail`, both pip invocations of the
PyInstaller step return exit code 1 — a command failure covered by no
declared tolerable-exit policy (the source declares none) — yet the
compile and copy steps are still executed afterwards and the run ends in
the success dialog.  This refutes the claim that every uncovered
CommandFailed makes the run transition to Failed and stop with no
subsequent step executed. -/
theorem C1_counterexample :
    hostPipFail.pipBreakExit ≠ 0 ∧ hostPipFail.pipPlainExit ≠ 0 ∧
    Cmd.pipInstallPlain ∈ (run_installation hostPipFail).spawned ∧
    (run_installation hostPipFail).success = true ∧
    (run_installation hostPipFail).executed =
      [.createDir, .dlModelfile, .dlMainPy, .installOllama, .dlModel,
       .createAI, .installPyinst, .compileStep, .copyExe] := by
  decide

/-- C1, amended: an uncovered command failure at any command-running step
other than PyInstaller installation makes that step raise — a non-zero
exit of curl (after the which-probe missed), of `ollama pull` (after the
list-probe missed), of `ollama create`, or of the pyinstaller build is
`ok = false` — and a raising step reached after a clean prefix makes the
whole run transition to Failed and stop: no subsequent step is executed
and no further progress is reported.  The single exception is the
PyInstaller-install step, which can never raise: it retries pip once and
ignores the retry's exit code, so its command failures are swallowed and
the run continues (kitt_installer.py lines 311-329). -/
theorem C1_failureAborts :
    (∀ (h : Host) (fs : FS),
      (h.whichOllamaExit ≠ 0 → (h.system = .darwin ∨ h.system = .linux) →
        h.curlExit ≠ 0 → (install_ollama h fs).ok = false) ∧
      (strContains h.ollamaListStdout model_name = false → h.pullExit ≠ 0 →
        (download_model h fs).ok = false) ∧
      (h.createExit ≠ 0 → (create_kitt_ai h fs).ok = false) ∧
      (fs.mainPy.isSome = true → h.compileExit ≠ 0 →
        (compile_with_pyinstaller h fs).ok = false) ∧
      (install_pyinstaller h fs).ok = true) ∧
    (∀ (pre : List (StepName × (FS → StepOut) × Nat)) (n : StepName)
       (f : FS → StepOut) (p : Nat)
       (post : List (StepName × (FS → StepOut) × Nat)) (fs : FS),
      (runSteps pre fs).success = true →
      (f (runSteps pre fs).fs).ok = false →
      (runSteps (pre ++ (n, f, p) :: post) fs).success = false ∧
      (runSteps (pre ++ (n, f, p) :: post) fs).executed =
        pre.map (fun x => x.1) ++ [n] ∧
      (runSteps (pre ++ (n, f, p) :: post) fs).progress =
        (runSteps pre fs).progress) := by
  constructor
  · intro h fs
    refine ⟨?_, ?_, ?_, ?_, ?_⟩
    · intro hw hsys hcurl
      rcases hsys with hs | hs <;> simp [install_ollama, hw, hs, hcurl]
    · intro hl hp
      simp [download_model, hl, hp]
    · intro hcr
      simp [create_kitt_ai, hcr]
    · intro hm hco
      simp [compile_with_pyinstaller, hm, hco]
    · unfold install_pyinstaller
      split <;> rfl
  · exact runSteps_abort

/-- Witness for C1_failureAborts: on `hostCreateFail` the five steps
before kitt-ai creation run cleanly, the `ollama create` command exits 1,
and the run transitions to Failed right there — the PyInstaller, compile
and copy steps are never executed; on `hostPipFail` the pip failure is
swallowed. -/
theorem C1_witness :
    hostCreateFail.createExit ≠ 0 ∧
    (create_kitt_ai hostCreateFail
      (runSteps preCreateAI hostCreateFail.fs).fs).ok = false ∧
    (runSteps preCreateAI hostCreateFail.fs).success = true ∧
    installPlan hostCreateFail =
      preCreateAI ++ (.createAI, create_kitt_ai hostCreateFail, 66) :: postCreateAI ∧
    ((runSteps (preCreateAI ++
        (.createAI, create_kitt_ai hostCreateFail, 66) :: postCreateAI)
        hostCreateFail.fs).success = false ∧
      (runSteps (preCreateAI ++
        (.createAI, create_kitt_ai hostCreateFail, 66) :: postCreateAI)
        hostCreateFail.fs).executed =
        preCreateAI.map (fun x => x.1) ++ [.createAI] ∧
      (runSteps (preCreateAI ++
        (.createAI, create_kitt_ai hostCreateFail, 66) :: postCreateAI)
        hostCreateFail.fs).progress =
        (runSteps preCreateAI hostCreateFail.fs).progress) ∧
    (install_pyinstaller hostPipFail fsFull).ok = true :=
  ⟨by decide,
   (C1_failureAborts.1 hostCreateFail
      (runSteps preCreateAI hostCreateFail.fs).fs).2.2.1 (by decide),
   by decide,
   rfl,
   C1_failureAborts.2 preCreateAI .createAI (create_kitt_ai hostCreateFail) 66
     postCreateAI hostCreateFail.fs (by decide) (by decide),
   (C1_failureAborts.1 hostPipFail fsFull).2.2.2.2⟩

/-
  ===================== Claim C4 =====================
-/

/-- C4 counterexample: on `hostAllOk`, `which ollama` exits 0 so the
Ollama step's idempotency check passes and a skipped message is logged —
but the check itself has already spawned one external process, so the
step runs one process, not zero.  This refutes the claim that a step
whose idempotency check passes runs zero processes. -/
theorem C4_counterexample :
    hostAllOk.whichOllamaExit = 0 ∧
    (install_ollama hostAllOk hostAllOk.fs).logs = [ILog.skipMsg .installOllama] ∧
    (install_ollama hostAllOk hostAllOk.fs).spawned ≠ [] := by
  decide

/-- C4, amended: when a step's idempotency check passes, the step's ACTION
command is never invoked, the host state is left unchanged, and a skipped
message is logged; however the Ollama-install and model-download steps
probe their precondition by spawning one process themselves
(`which ollama`, `ollama list`), so for those two steps exactly one
process — the probe, never the action — runs. -/
theorem C4_skipNoAction :
    ∀ (h : Host) (fs : FS),
      (fs.kittDirExists = true →
        (create_kitt_directory fs).fs = fs ∧
        (create_kitt_directory fs).spawned = [] ∧
        (create_kitt_directory fs).logs = [ILog.skipMsg .createDir]) ∧
      (fs.modelfile.isSome = true →
        (download_modelfile h fs).fs = fs ∧
        (download_modelfile h fs).fetched = [] ∧
        (download_modelfile h fs).logs = [ILog.skipMsg .dlModelfile]) ∧
      (fs.mainPy.isSome = true →
        (download_main_py h fs).fs = fs ∧
        (download_main_py h fs).fetched = [] ∧
        (download_main_py h fs).logs = [ILog.skipMsg .dlMainPy]) ∧
      (h.whichOllamaExit = 0 →
        (install_ollama h fs).spawned = [Cmd.whichOllama] ∧
        (install_ollama h fs).logs = [ILog.skipMsg .installOllama] ∧
        Cmd.curlFetchInstallScript ∉ (install_ollama h fs).spawned) ∧
      (strContains h.ollamaListStdout model_name = true →
        (download_model h fs).spawned = [Cmd.ollamaList] ∧
        (download_model h fs).logs = [ILog.skipMsg .dlModel] ∧
        Cmd.ollamaPull ∉ (download_model h fs).spawned) := by
  intro h fs
  refine ⟨?_, ?_, ?_, ?_, ?_⟩ <;> intro hc <;>
    simp [create_kitt_directory, download_modelfile, download_main_py,
          install_ollama, download_model, hc]

/-- Witness for C4_skipNoAction: every idempotency check passes on
`hostAllOk` with `fsFull`. -/
theorem C4_witness :
    fsFull.kittDirExists = true ∧
    ((create_kitt_directory fsFull).fs = fsFull ∧
      (create_kitt_directory fsFull).spawned = [] ∧
      (create_kitt_directory fsFull).logs = [ILog.skipMsg .createDir]) ∧
    strContains hostAllOk.ollamaListStdout model_name = true ∧
    ((download_model hostAllOk fsFull).spawned = [Cmd.ollamaList] ∧
      (download_model hostAllOk fsFull).logs = [ILog.skipMsg .dlModel] ∧
      Cmd.ollamaPull ∉ (download_model hostAllOk fsFull).spawned) :=
  ⟨by decide, (C4_skipNoAction hostAllOk fsFull).1 (by decide), by decide,
   (C4_skipNoAction hostAllOk fsFull).2.2.2.2 (by decide)⟩

/-
  ===================== Claim C5 =====================
-/

/-- C5, confirmed: the per-step progress weights of the plan (the
increments between successive reported cumulative values 11, 22, …, 88,
100) sum to 100; on every run the sequence of reported cumulative
progress values is monotonically non-decreasing; and on a fully
successful run the reported sequence is exactly the full target list,
ending at exactly 100. -/
theorem C5_progressInvariant :
    progressWeights.sum = 100 ∧
    (∀ h : Host, List.Chain' (· ≤ ·) (run_installation h).progress) ∧
    (∀ h : Host, (run_installation h).success = true →
      (run_installation h).progress = progressTargets ∧
      (run_installation h).progress.getLast? = some 100) := by
  refine ⟨by decide, ?_, ?_⟩
  · intro h
    obtain ⟨k, hk⟩ := runSteps_progress_take (installPlan h) h.fs
    have hmap : (installPlan h).map (fun x => x.2.2) = progressTargets := by
      simp [installPlan, progressTargets]
    have hchain : List.Chain' (· ≤ ·) progressTargets := by
      norm_num [progressTargets, List.chain'_cons]
    show List.Chain' (· ≤ ·) (runSteps (installPlan h) h.fs).progress
    rw [hk, hmap]
    exact hchain.take k
  · intro h hs
    have h2 := (runSteps_ok_all (installPlan h) h.fs hs).2
    have hmap : (installPlan h).map (fun x => x.2.2) = progressTargets := by
      simp [installPlan, progressTargets]
    have hp : (run_installation h).progress = progressTargets := by
      rw [run_installation, h2, hmap]
    exact ⟨hp, by rw [hp]; decide⟩

/-- Witness for C5_progressInvariant: `hostAllOk` gives a fully
successful run whose final reported progress is exactly 100. -/
theorem C5_witness :
    (run_installation hostAllOk).success = true ∧
    (run_installation hostAllOk).progress = progressTargets ∧
    (run_installation hostAllOk).progress.getLast? = some 100 :=
  ⟨by decide, C5_progressInvariant.2.2 hostAllOk (by decide)⟩

/-
  ===================== Claim C9 =====================
-/

/-- C9 counterexample: on `hostFail` the run reaches the Failed outcome
(error dialog), yet the driver's process exit status is still 0 — the
failing command's exit code is not propagated.  This refutes the claim
that the command-line driver exits non-zero on Failed. -/
theorem C9_counterexample :
    (run_installation hostFail).success = false ∧
    (kitt_installer_main hostFail).2.1 = DriverNotice.errorDialog ∧
    (kitt_installer_main hostFail).2.2 = 0 := by
  decide

/-- C9, amended: the driver signals the outcome only through a dialog box
(success box on Succeeded, error box on Failed); its process exit status
is 0 in every case — run_installation catches every exception itself and
the script never calls sys.exit, so no exit code is ever propagated. -/
theorem C9_exitStatus :
    ∀ h : Host,
      (kitt_installer_main h).2.2 = 0 ∧
      ((run_installation h).success = false →
        (kitt_installer_main h).2.1 = DriverNotice.errorDialog) ∧
      ((run_installation h).success = true →
        (kitt_installer_main h).2.1 = DriverNotice.successDialog) := by
  intro h
  refine ⟨rfl, ?_, ?_⟩ <;> intro hc <;> simp [kitt_installer_main, hc]

/-- Witness for C9_exitStatus, instantiated on the failing host. -/
theorem C9_witness :
    (kitt_installer_main hostFail).2.2 = 0 ∧
    (run_installation hostFail).success = false ∧
    (kitt_installer_main hostFail).2.1 = DriverNotice.errorDialog :=
  ⟨(C9_exitStatus hostFail).1, by decide,
   (C9_exitStatus hostFail).2.1 (by decide)⟩

/-
  ===================== Claim C10 =====================
-/

/-- C10, confirmed: a download step whose target file already exists
performs no network fetch and leaves the filesystem — in particular the
file's contents — unchanged; consequently, a whole installer run on a
host where both downloaded artifacts are already present fetches nothing
and leaves both artifacts byte-for-byte as they were, so re-running the
installer never refreshes a previously downloaded (possibly stale)
artifact. -/
theorem C10_noRefetch :
    (∀ (h : Host) (fs : FS) (e : FileEntry), fs.modelfile = some e →
      (download_modelfile h fs).fs = fs ∧ (download_modelfile h fs).fetched = []) ∧
    (∀ (h : Host) (fs : FS) (e : FileEntry), fs.mainPy = some e →
      (download_main_py h fs).fs = fs ∧ (download_main_py h fs).fetched = []) ∧
    (∀ (h : Host) (e1 e2 : FileEntry),
      h.fs.modelfile = some e1 → h.fs.mainPy = some e2 →
      (run_installation h).fs.modelfile = some e1 ∧
      (run_installation h).fs.mainPy = some e2 ∧
      (run_installation h).fetched = []) := by
  refine ⟨?_, ?_, ?_⟩
  · intro h fs e he; simp [download_modelfile, he]
  · intro h fs e he; simp [download_main_py, he]
  · intro h e1 e2 h1 h2
    have hstep : ∀ x ∈ installPlan h, ∀ fs : FS,
        (fs.modelfile = some e1 ∧ fs.mainPy = some e2) →
        ((x.2.1 fs).fs.modelfile = some e1 ∧ (x.2.1 fs).fs.mainPy = some e2) ∧
        (x.2.1 fs).fetched = [] := by
      intro x hx fs hab
      obtain ⟨ha, hb⟩ := hab
      simp [installPlan] at hx
      rcases hx with h' | h' | h' | h' | h' | h' | h' | h' | h' <;> subst h' <;>
        simp only [create_kitt_directory, download_modelfile, download_main_py,
          install_ollama, download_model, create_kitt_ai, install_pyinstaller,
          compile_with_pyinstaller, copy_executable] <;>
        repeat' split <;> simp_all
    have hrun := runSteps_preserve
      (fun fs => fs.modelfile = some e1 ∧ fs.mainPy = some e2)
      (installPlan h) hstep h.fs ⟨h1, h2⟩
    exact ⟨hrun.1.1, hrun.1.2, hrun.2⟩

/-- Witness for C10_noRefetch: on `hostAllOk` both artifacts are present,
nothing is fetched and both survive the whole run unchanged. -/
theorem C10_witness :
    fsFull.modelfile = some ⟨[72], 420⟩ ∧
    (download_modelfile hostAllOk fsFull).fetched = [] ∧
    hostAllOk.fs.mainPy = some ⟨[35], 493⟩ ∧
    ((run_installation hostAllOk).fs.modelfile = some ⟨[72], 420⟩ ∧
      (run_installation hostAllOk).fs.mainPy = some ⟨[35], 493⟩ ∧
      (run_installation hostAllOk).fetched = []) :=
  ⟨by decide,
   (C10_noRefetch.1 hostAllOk fsFull ⟨[72], 420⟩ (by decide)).2,
   by decide,
   C10_noRefetch.2.2 hostAllOk ⟨[72], 420⟩ ⟨[35], 493⟩ (by decide) (by decide)⟩

/-
  ===================== Chat-side helper lemmas =====================
-/

theorem streamLoop_disp (cs : List Char) :
    (streamLoop cs).filterMap dispProj = [] := by
  induction cs with
  | nil => rfl
  | cons c t ih => simpa [streamLoop, dispProj] using ih

theorem streamLoop_fwd (cs : List Char) :
    (streamLoop cs).filterMap fwdProj = cs := by
  induction cs with
  | nil => rfl
  | cons c t ih => simpa [streamLoop, fwdProj, readProj] using ih

theorem streamLoop_read (cs : List Char) :
    (streamLoop cs).filterMap readProj = cs := by
  induction cs with
  | nil => rfl
  | cons c t ih => simpa [streamLoop, fwdProj, readProj] using ih

theorem streamLoop_cons (c : Char) (t : List Char) :
    streamLoop (c :: t) = QAct.readChar c :: QAct.forward c :: streamLoop t := by
  simp [streamLoop]

theorem streamLoop_filter_stream (cs : List Char) :
    (streamLoop cs).filter isStreamAct = streamLoop cs := by
  induction cs with
  | nil => rfl
  | cons c t ih =>
    rw [streamLoop_cons]
    simp [List.filter_cons, isStreamAct, ih]

theorem streamLoop_no_kill (cs : List Char) :
    QAct.killProc ∉ streamLoop cs := by
  induction cs with
  | nil => simp [streamLoop]
  | cons c t ih => simp [streamLoop, ih]

/-
  ===================== Concrete chat states =====================
-/

/-- A healthy process behaviour: no output, clean exit. -/
def bQuick : ProcBehavior :=
  { stdoutChars := [], stdoutCloses := true, exitsWithinWait := true,
    exitCode := 0, stderrText := "" }

/-- A process that exits 1 having produced no output, with diagnostic
text sitting in its stderr pipe. -/
def bNoOut : ProcBehavior :=
  { stdoutChars := [], stdoutCloses := true, exitsWithinWait := true,
    exitCode := 1, stderrText := "boom" }

/-- A process that streams "hi" and then exits 1. -/
def bSoft : ProcBehavior :=
  { stdoutChars := ['h', 'i'], stdoutCloses := true, exitsWithinWait := true,
    exitCode := 1, stderrText := "boom" }

/-- A process that emits one character and then neither produces further
output nor closes stdout nor exits: it never gives a terminal signal. -/
def bHang : ProcBehavior :=
  { stdoutChars := ['p'], stdoutCloses := false, exitsWithinWait := false,
    exitCode := 0, stderrText := "" }

/-- A process that emits one character, closes stdout, but does not exit
within the 300-second wait window. -/
def bTimeout : ProcBehavior :=
  { stdoutChars := ['p'], stdoutCloses := true, exitsWithinWait := false,
    exitCode := 0, stderrText := "" }

/-- Idle application state with a message typed in the input box. -/
def sIdle : KState :=
  { inputText := "salut", sendEnabled := true, inputEnabled := true,
    queryInFlight := false, procAlive := false, spawnCount := 0,
    appClosed := false, displayed := [] }

/-- Application state while a query is in flight: a process is running,
the send button and input box are disabled. -/
def sBusy : KState :=
  { inputText := "", sendEnabled := false, inputEnabled := false,
    queryInFlight := true, procAlive := true, spawnCount := 1,
    appClosed := false, displayed := [Msg.userEcho "salut"] }

/-
  ===================== Claim C2 =====================
-/

/-- C2 counterexample: `sBusy` has a query in flight, yet invoking the
core query function spawns a new external process anyway, and the query
trace contains no rejection message of any kind (there is no Busy error
in the program).  This refutes the claim that a second ask is rejected
with ErrorKind.Busy by the core itself with no new process spawned. -/
theorem C2_counterexample :
    sBusy.queryInFlight = true ∧
    (query_kitt_app "salut" bQuick sBusy).spawnCount = sBusy.spawnCount + 1 ∧
    msgsOf (query_kitt "salut" bQuick) = [] := by
  decide

/-- C2, amended: the core performs no concurrency check at all — every
invocation of query_kitt spawns a new process, and its behaviour is
identical whether or not a query is already in flight; concurrent asks
are prevented only at the UI layer, where send_message disables the send
button and the input box before starting the query thread (main.py
lines 163-169). -/
theorem C2_noBusyGuard :
    (∀ (p : String) (b : ProcBehavior) (s : KState),
      (query_kitt_app p b s).spawnCount = s.spawnCount + 1) ∧
    (∀ (p : String) (b : ProcBehavior) (s : KState) (flag : Bool),
      query_kitt_app p b { s with queryInFlight := flag } =
        { query_kitt_app p b s with queryInFlight := flag }) ∧
    (∀ s : KState, pyStrip s.inputText ≠ "" →
      (send_message_pre s).sendEnabled = false ∧
      (send_message_pre s).inputEnabled = false ∧
      (send_message_pre s).queryInFlight = true) := by
  refine ⟨?_, ?_, ?_⟩
  · intro p b s
    simp only [query_kitt_app]
    split <;> rfl
  · intro p b s flag
    simp only [query_kitt_app]
    split <;> rfl
  · intro s _
    exact ⟨rfl, rfl, rfl⟩

/-- Witness for C2_noBusyGuard, instantiated on the in-flight state and
on an idle state with a non-blank message. -/
theorem C2_witness :
    (query_kitt_app "salut" bQuick sBusy).spawnCount = sBusy.spawnCount + 1 ∧
    pyStrip sIdle.inputText ≠ "" ∧
    ((send_message_pre sIdle).sendEnabled = false ∧
      (send_message_pre sIdle).inputEnabled = false ∧
      (send_message_pre sIdle).queryInFlight = true) :=
  ⟨C2_noBusyGuard.1 "salut" bQuick sBusy, by decide,
   C2_noBusyGuard.2.2 sIdle (by decide)⟩

/-
  ===================== Claim C3 =====================
-/

/-- C3 counterexample: for a no-output failure the displayed error is
`stderrHandleErr` — the message interpolates the stderr pipe OBJECT, and
indeed the whole query result is unchanged when the captured stderr text
is replaced by a different string, so the error cannot be carrying the
captured diagnostic output; and for a failure after output ("hi"
streamed, exit 1) no message is displayed at all, so the failure is not
even logged.  Both halves of the claim fail. -/
theorem C3_counterexample :
    msgsOf (query_kitt "q" bNoOut) = [Msg.stderrHandleErr] ∧
    query_kitt "q" { bNoOut with stderrText := "different text" } =
      query_kitt "q" bNoOut ∧
    bSoft.exitCode ≠ 0 ∧ bSoft.stdoutChars ≠ [] ∧
    msgsOf (query_kitt "q" bSoft) = [] := by
  decide

/-- C3, amended: a non-zero exit with no output produced surfaces an
error message, but that message interpolates the stderr stream handle
rather than its captured text — the query's outcome is independent of
what the process wrote to stderr; a non-zero exit after some output had
streamed is silently ignored: the partial output stands and nothing is
logged or raised (main.py lines 219-221). -/
theorem C3_softFailure :
    ∀ (p : String) (b : ProcBehavior),
      b.stdoutCloses = true → b.exitsWithinWait = true →
      ((b.exitCode ≠ 0 → b.stdoutChars = [] →
         msgsOf (query_kitt p b) = [Msg.stderrHandleErr]) ∧
       (b.stdoutChars ≠ [] → msgsOf (query_kitt p b) = []) ∧
       (∀ s, query_kitt p { b with stderrText := s } = query_kitt p b)) := by
  intro p b hc hw
  refine ⟨?_, ?_, fun s => rfl⟩
  · intro he h0
    simp [query_kitt, msgsOf, hc, hw, h0, he, streamLoop, dispProj,
          stderrPipeTruthy]
  · intro hn
    have hne : b.stdoutChars.isEmpty = false := by
      cases hcs : b.stdoutChars with
      | nil => exact absurd hcs hn
      | cons a t => simp
    simp [query_kitt, msgsOf, hc, hw, hne, dispProj, streamLoop_disp]

/-- Witness for C3_softFailure, instantiated on the no-output failing
process and on the partial-output failing process. -/
theorem C3_witness :
    bNoOut.stdoutCloses = true ∧ bNoOut.exitsWithinWait = true ∧
    bNoOut.exitCode ≠ 0 ∧ bNoOut.stdoutChars = [] ∧
    msgsOf (query_kitt "q" bNoOut) = [Msg.stderrHandleErr] ∧
    bSoft.stdoutChars ≠ [] ∧
    msgsOf (query_kitt "q" bSoft) = [] :=
  ⟨by decide, by decide, by decide, by decide,
   (C3_softFailure "q" bNoOut (by decide) (by decide)).1 (by decide) (by decide),
   by decide,
   (C3_softFailure "q" bSoft (by decide) (by decide)).2.1 (by decide)⟩

/-
  ===================== Claim C6 =====================
-/

/-- C6 counterexample: `bHang` never produces a terminal signal — it
neither closes stdout nor exits — yet the query neither kills the
process nor reports a timeout: it simply never returns, because the
300-second timeout guards only the `process.wait` call AFTER end of
stream, and `process.stdout.read(1)` has no timeout (main.py
line 195 versus line 212).  This refutes the claim that every query
with no terminal signal within the timeout gets its process terminated
and ErrorKind.Timeout reported. -/
theorem C6_counterexample :
    bHang.stdoutCloses = false ∧ bHang.exitsWithinWait = false ∧
    (query_kitt "q" bHang).returned = false ∧
    QAct.killProc ∉ (query_kitt "q" bHang).acts ∧
    QAct.display Msg.timeoutNotice ∉ (query_kitt "q" bHang).acts := by
  decide

/-- C6, amended: the timeout protection applies only after the process
closes stdout: in that case, if the process then fails to exit within
the wait window it is forcibly killed BEFORE the timeout error is
displayed, and all partial output already forwarded is preserved and not
retracted; but a process that never closes stdout blocks the query
forever — it is never killed and no timeout is ever reported. -/
theorem C6_timeoutAfterEOF :
    ∀ (p : String) (b : ProcBehavior),
      (b.stdoutCloses = true → b.exitsWithinWait = false →
        (query_kitt p b).acts =
          QAct.kittHeader :: QAct.spawnOllamaRun p :: streamLoop b.stdoutChars ++
            [QAct.readEOF, QAct.waitProc, QAct.killProc,
             QAct.display Msg.timeoutNotice] ∧
        forwards (query_kitt p b) = b.stdoutChars ∧
        (query_kitt p b).returned = true) ∧
      (b.stdoutCloses = false →
        (query_kitt p b).returned = false ∧
        QAct.killProc ∉ (query_kitt p b).acts ∧
        forwards (query_kitt p b) = b.stdoutChars) := by
  intro p b
  constructor
  · intro hc hw
    refine ⟨?_, ?_, ?_⟩
    · simp [query_kitt, hc, hw]
    · simp [query_kitt, forwards, hc, hw, fwdProj, streamLoop_fwd]
    · simp [query_kitt, hc, hw]
  · intro hc
    refine ⟨?_, ?_, ?_⟩
    · simp [query_kitt, hc]
    · simp [query_kitt, hc, streamLoop_no_kill]
    · simp [query_kitt, forwards, hc, fwdProj, streamLoop_fwd]

/-- Witness for C6_timeoutAfterEOF, instantiated on a process that closes
stdout after one character but never exits, and on the hanging process. -/
theorem C6_witness :
    bTimeout.stdoutCloses = true ∧ bTimeout.exitsWithinWait = false ∧
    ((query_kitt "q" bTimeout).acts =
        QAct.kittHeader :: QAct.spawnOllamaRun "q" :: streamLoop bTimeout.stdoutChars ++
          [QAct.readEOF, QAct.waitProc, QAct.killProc,
           QAct.display Msg.timeoutNotice] ∧
      forwards (query_kitt "q" bTimeout) = bTimeout.stdoutChars ∧
      (query_kitt "q" bTimeout).returned = true) ∧
    bHang.stdoutCloses = false ∧
    ((query_kitt "q" bHang).returned = false ∧
      QAct.killProc ∉ (query_kitt "q" bHang).acts ∧
      forwards (query_kitt "q" bHang) = bHang.stdoutChars) :=
  ⟨by decide, by decide,
   (C6_timeoutAfterEOF "q" bTimeout).1 (by decide) (by decide),
   by decide,
   (C6_timeoutAfterEOF "q" bHang).2 (by decide)⟩

/-
  ===================== Claim C7 =====================
-/

/-- C7, confirmed: in every query trace, the stream-level actions are
exactly — for each stdout character in arrival order — a read
immediately followed by that character's forwarding into the display,
before the next read happens; the forwarded sequence equals the read
sequence equals the process's stdout output, so concatenating the
forwarded units reproduces the output with no batching or reordering.
Likewise the installer's model-pull step logs the process's stdout lines
in arrival order (or a single skipped message). -/
theorem C7_streamOrder :
    (∀ (p : String) (b : ProcBehavior),
      streamActs (query_kitt p b) = streamLoop b.stdoutChars ∧
      forwards (query_kitt p b) = b.stdoutChars ∧
      readsOf (query_kitt p b) = b.stdoutChars) ∧
    (∀ (h : Host) (fs : FS),
      (download_model h fs).logs = [ILog.skipMsg .dlModel] ∨
      (download_model h fs).logs = h.pullLines.map ILog.streamLine) := by
  constructor
  · intro p b
    refine ⟨?_, ?_, ?_⟩
    · by_cases hc : b.stdoutCloses = true
      · by_cases hw : b.exitsWithinWait = true
        · by_cases he : (b.exitCode != 0 && b.stdoutChars.isEmpty) = true
          · simp [query_kitt, streamActs, hc, hw, he, isStreamAct,
                  streamLoop_filter_stream]
          · simp [query_kitt, streamActs, hc, hw, he, isStreamAct,
                  streamLoop_filter_stream]
        · simp [query_kitt, streamActs, hc, hw, isStreamAct,
                streamLoop_filter_stream]
      · simp [query_kitt, streamActs, hc, isStreamAct, streamLoop_filter_stream]
    · by_cases hc : b.stdoutCloses = true
      · by_cases hw : b.exitsWithinWait = true
        · by_cases he : (b.exitCode != 0 && b.stdoutChars.isEmpty) = true
          · simp [query_kitt, forwards, hc, hw, he, fwdProj, streamLoop_fwd]
          · simp [query_kitt, forwards, hc, hw, he, fwdProj, streamLoop_fwd]
        · simp [query_kitt, forwards, hc, hw, fwdProj, streamLoop_fwd]
      · simp [query_kitt, forwards, hc, fwdProj, streamLoop_fwd]
    · by_cases hc : b.stdoutCloses = true
      · by_cases hw : b.exitsWithinWait = true
        · by_cases he : (b.exitCode != 0 && b.stdoutChars.isEmpty) = true
          · simp [query_kitt, readsOf, hc, hw, he, readProj, streamLoop_read]
          · simp [query_kitt, readsOf, hc, hw, he, readProj, streamLoop_read]
        · simp [query_kitt, readsOf, hc, hw, readProj, streamLoop_read]
      · simp [query_kitt, readsOf, hc, readProj, streamLoop_read]
  · intro h fs
    unfold download_model
    split
    · left; rfl
    · right; rfl

/-
  ===================== Claim C8 =====================
-/

/-- C8 counterexample: with a query in flight (`sBusy`, process alive),
none of the three user actions the interface offers — send, clear
conversation, quit — terminates the underlying process, and none
surfaces any cancelled status: there is no cancel request in the
program.  This refutes the claim that an explicit cancel request
terminates the process and surfaces ErrorKind.Cancelled. -/
theorem C8_counterexample :
    sBusy.procAlive = true ∧ sBusy.sendEnabled = false ∧
    (applyAction .pressSend bQuick sBusy).procAlive = true ∧
    (applyAction .pressClear bQuick sBusy).procAlive = true ∧
    (applyAction .pressQuit bQuick sBusy).procAlive = true := by
  decide

/-- C8, amended: no cancellation mechanism exists.  While a query is in
flight (send disabled), pressing send is a no-op; clearing the
conversation replaces the display with a system note without touching
the process; quitting closes the UI without killing the process and
without altering the displayed conversation.  No action yields a
Cancelled status — a query ends only through end-of-stream, the
post-stream wait timeout, or an exception. -/
theorem C8_noCancel :
    ∀ (b : ProcBehavior) (s : KState), s.sendEnabled = false →
      applyAction .pressSend b s = s ∧
      ((applyAction .pressClear b s).procAlive = s.procAlive ∧
        (applyAction .pressClear b s).displayed =
          [Msg.systemNote "Conversation effacée"]) ∧
      ((applyAction .pressQuit b s).procAlive = s.procAlive ∧
        (applyAction .pressQuit b s).displayed = s.displayed ∧
        (applyAction .pressQuit b s).appClosed = true) := by
  intro b s hs
  refine ⟨?_, ⟨rfl, rfl⟩, ⟨rfl, rfl, rfl⟩⟩
  simp [applyAction, hs]

/-- Witness for C8_noCancel, instantiated on the in-flight state. -/
theorem C8_witness :
    sBusy.sendEnabled = false ∧
    applyAction .pressSend bQuick sBusy = sBusy ∧
    (applyAction .pressQuit bQuick sBusy).procAlive = sBusy.procAlive :=
  ⟨by decide, (C8_noCancel bQuick sBusy (by decide)).1,
   (C8_noCancel bQuick sBusy (by decide)).2.2.1⟩

end KITT
